import Mathlib

/-!
Verification of the Alert-Dashboard-V2 backend against its specification.

The Python sources under src/backend are shallowly embedded below:
pure functions become Lean functions, the stateful alert manager becomes
explicit state passing over a `ManagerState` record, and callback
notifications become an explicit list of emitted `ManagerEvent`s.
-/

/- ============================ Definitions ============================ -/

/-- Embeds `AlertSignificance` from src/backend/models/alert.py. -/
inductive AlertSignificance where
  | WARNING
  | WATCH
  | ADVISORY
  | STATEMENT
  | OUTLOOK
  | SYNOPSIS
  | FORECAST
deriving DecidableEq, Repr

/-- Embeds `AlertStatus` from src/backend/models/alert.py. -/
inductive AlertStatus where
  | active
  | expired
  | cancelled
  | updated
deriving DecidableEq, Repr

/-- Embeds the fields of `VTECInfo` (src/backend/models/alert.py) that the
claims observe.  A VTEC record accepted by `VTECParser.parse` always has a
4-character office code (regex `[A-Z]-x7b4-x7d`), a 2-character phenomenon and an
ETN parsed from 4 digits. -/
structure VTECInfo where
  office : String
  phenomenon : String
  significance : AlertSignificance
  event_tracking_number : Nat
deriving DecidableEq, Repr

/-- Python `%04d` formatting of a nonnegative integer: zero-pad the decimal
representation to at least 4 digits. -/
def pad4 (n : Nat) : String :=
  let s := toString n
  if s.length < 4 then String.mk (List.replicate (4 - s.length) '0') ++ s else s

/-- Python `%03d` formatting of a nonnegative integer. -/
def pad3 (n : Nat) : String :=
  let s := toString n
  if s.length < 3 then String.mk (List.replicate (3 - s.length) '0') ++ s else s

namespace VTECParser

/-- Embeds `VTECParser.build_product_id` (src/backend/parsers/vtec_parser.py,
lines 306-334). -/
def build_product_id (v : VTECInfo) : String :=
  if v.significance = AlertSignificance.WATCH then
    v.phenomenon ++ "A." ++ pad4 v.event_tracking_number
  else
    let office :=
      if v.office.startsWith "K" && v.office.length == 4 then v.office.drop 1
      else v.office
    v.phenomenon ++ "." ++ office ++ "." ++ pad4 v.event_tracking_number

end VTECParser

/-- Follows the words of the spec for claim C1: the office code with a
leading K stripped. -/
def officeWithoutK (o : String) : String :=
  if o.startsWith "K" then o.drop 1 else o

namespace UGCParser

/-- Embeds the range branch of `UGCParser._expand_codes`
(src/backend/parsers/ugc_parser.py, lines 205-255) for a code string that is
exactly one `START>END` range (so the before/after remainders are empty):
swap a reversed range, then emit `pfx ++ pad3 i` for `i` from the low to the
high endpoint inclusively. -/
def expand_range (pfx : String) (s e : Nat) : List String :=
  let lo := if s > e then e else s
  let hi := if s > e then s else e
  (List.range' lo (hi - lo + 1)).map (fun i => pfx ++ pad3 i)

end UGCParser

/-- Embeds the fields of `ThreatData` (src/backend/models/alert.py) observed
by the claims: the four damage-tier strings, the tornado detection tag and
the maximum wind gust used by the alert-manager merge. -/
structure ThreatData where
  tornado_detection : Option String := none
  tornado_damage_threat : Option String := none
  max_wind_gust_mph : Option Nat := none
  wind_damage_threat : Option String := none
  hail_damage_threat : Option String := none
  flash_flood_damage_threat : Option String := none
deriving DecidableEq, Repr

/-- Embeds `ThreatData.is_pds` (src/backend/models/alert.py, lines 203-210):
tornado tier in (CONSIDERABLE, CATASTROPHIC), or wind tier in (CONSIDERABLE,
DESTRUCTIVE, CATASTROPHIC), or hail tier in (CONSIDERABLE, CATASTROPHIC). -/
def ThreatData.is_pds (t : ThreatData) : Bool :=
  (t.tornado_damage_threat == some "CONSIDERABLE"
      || t.tornado_damage_threat == some "CATASTROPHIC")
    || (t.wind_damage_threat == some "CONSIDERABLE"
      || t.wind_damage_threat == some "DESTRUCTIVE"
      || t.wind_damage_threat == some "CATASTROPHIC")
    || (t.hail_damage_threat == some "CONSIDERABLE"
      || t.hail_damage_threat == some "CATASTROPHIC")

/-- Follows the words of the spec for claim C9: a damage tier reaches
CONSIDERABLE or a higher tier (DESTRUCTIVE or CATASTROPHIC). -/
def tierConsiderableOrAbove (x : Option String) : Bool :=
  x == some "CONSIDERABLE" || x == some "DESTRUCTIVE" || x == some "CATASTROPHIC"

/-- Concrete threat block whose only nontrivial tier is a CATASTROPHIC flash
flood tag. -/
def threatFlashFloodOnly : ThreatData :=
  { flash_flood_damage_threat := some "CATASTROPHIC" }

/-- Concrete threat block whose only nontrivial tier is a DESTRUCTIVE
tornado tag. -/
def threatTornadoDestructive : ThreatData :=
  { tornado_damage_threat := some "DESTRUCTIVE" }

/-- Python `str.upper()` (character-wise uppercasing). -/
def strUpper (s : String) : String :=
  String.mk (s.data.map Char.toUpper)

/-- Python slicing `s[:n]` on a string: the first `n` characters. -/
def strTake (s : String) (n : Nat) : String :=
  String.mk (s.data.take n)

namespace AlertParser

/-- The membership test used by both state-filter helpers of
src/backend/parsers/alert_parser.py: the code is at least 2 characters long
and its uppercased 2-letter state code is among the uppercased configured
filter states. -/
def stateMatch (filter_states : List String) (ugc : String) : Bool :=
  2 ≤ ugc.length
    && (filter_states.map strUpper).contains (strUpper (strTake ugc 2))

/-- Embeds `AlertParser._is_target_state` (src/backend/parsers/
alert_parser.py): accept everything when the configured filter is empty,
reject when there are no affected areas, otherwise accept when the set of
state codes drawn from the areas meets the filter set. -/
def is_target_state (filter_states : List String) (areas : List String) : Bool :=
  if filter_states.isEmpty then true
  else if areas.isEmpty then false
  else areas.any (stateMatch filter_states)

/-- Embeds `AlertParser._filter_to_target_states` (src/backend/parsers/
alert_parser.py, lines 857-897): with an empty filter or empty area list the
input is returned unchanged, otherwise only codes from target states are
kept. -/
def filter_to_target_states (filter_states : List String)
    (areas : List String) : List String :=
  if filter_states.isEmpty then areas
  else if areas.isEmpty then areas
  else areas.filter (stateMatch filter_states)

/-- Embeds the state-filtering stage of `AlertParser.parse_text_alert`
(src/backend/parsers/alert_parser.py, lines 448-468): reject when no target
state is touched, then replace `affected_areas` by the filtered list, then
reject when the filtered list is empty. -/
def state_filter_stage (filter_states : List String)
    (areas : List String) : Option (List String) :=
  if !is_target_state filter_states areas then none
  else
    let filtered := filter_to_target_states filter_states areas
    if filtered.isEmpty then none else some filtered

end AlertParser

/-- Substring helper used below: `hasPrefixL h n` holds when `n` is an
initial segment of `h`. -/
def hasPrefixL : List Char → List Char → Bool
  | _, [] => true
  | [], _ :: _ => false
  | a :: as, b :: bs => a == b && hasPrefixL as bs

/-- Substring helper: `hasSubL h n` holds when `n` occurs contiguously
inside `h`, mirroring the Python `in` test on strings. -/
def hasSubL : List Char → List Char → Bool
  | [], n => n.isEmpty
  | a :: as, n => hasPrefixL (a :: as) n || hasSubL as n

/-- Python `needle in hay` on strings. -/
def strContains (hay needle : String) : Bool :=
  hasSubL hay.data needle.data

/-- Python `str.zfill(4)`. -/
def zfill4 (s : String) : String :=
  if s.length < 4 then String.mk (List.replicate (4 - s.length) '0') ++ s else s

namespace AlertParser

/-- Embeds the product-id assignment of `AlertParser.parse_text_alert`
(src/backend/parsers/alert_parser.py, lines 340-378): a valid VTEC yields
`VTECParser.build_product_id`; otherwise a watch header
(`PATTERN_WATCH_TYPE` match, giving the watch type text and the watch
number) yields a synthetic SPC watch id; otherwise the fallback id is
`"nwws_"` followed by the current UTC timestamp.  No other fallback id
exists in the source; in particular no SPS-specific hash id is built. -/
def text_product_id (vtec : Option VTECInfo)
    (watch : Option (String × String)) (nowTs : String) : String :=
  match vtec with
  | some v => VTECParser.build_product_id v
  | none =>
    match watch with
    | some wt =>
      (if strContains wt.fst "TORNADO" then "TO" else "SV")
        ++ "A.SPC." ++ zfill4 wt.snd
    | none => "nwws_" ++ nowTs

end AlertParser

/-- Embeds the fields of `Alert` (src/backend/models/alert.py) observed by
the alert-manager claims.  Timestamps are modelled as integer epoch
instants; coordinates as exact rationals. -/
structure Alert where
  product_id : String
  status : AlertStatus := AlertStatus.active
  headline : String := ""
  description : String := ""
  instruction : String := ""
  expiration_time : Option Int := none
  threat : ThreatData := {}
  polygon : List (Rat × Rat) := []
  update_count : Nat := 0
  last_updated : Option Int := none
deriving DecidableEq, Repr

/-- Embeds `Alert.mark_updated` (src/backend/models/alert.py): bump
`update_count` and stamp `last_updated` with the current instant. -/
def Alert.mark_updated (now : Int) (a : Alert) : Alert :=
  { a with last_updated := some now, update_count := a.update_count + 1 }

/-- Embeds `Alert.mark_expired` (src/backend/models/alert.py): set the
status to expired, then `mark_updated`. -/
def Alert.mark_expired (now : Int) (a : Alert) : Alert :=
  Alert.mark_updated now { a with status := AlertStatus.expired }

/-- An alert-carrying callback notification fired by the manager
(`_notify_added` / `_notify_updated` / `_notify_removed` in
src/backend/services/alert_manager.py). -/
inductive ManagerEvent where
  | added (a : Alert)
  | updated (a : Alert)
  | removed (a : Alert)
deriving DecidableEq, Repr

/-- Embeds the mutable state of `AlertManager`
(src/backend/services/alert_manager.py): the `_alerts` dict as an
insertion-ordered association list, the `_recent_products` deque as the list
of recorded product ids (most recent first) with its `maxlen` bound. -/
structure ManagerState where
  alerts : List (String × Alert)
  recent : List String := []
  max_recent : Nat := 50
deriving DecidableEq, Repr

/-- Python `self._alerts.get(pid)`. -/
def lookupAlert (l : List (String × Alert)) (pid : String) : Option Alert :=
  (l.find? (fun p => p.fst == pid)).map Prod.snd

/-- Python `self._alerts.pop(pid, None)`, state part: drop the (unique)
entry with the given key. -/
def eraseAlert (l : List (String × Alert)) (pid : String) : List (String × Alert) :=
  l.eraseP (fun p => p.fst == pid)

/-- Python dict update `self._alerts[pid] = a` for a key already present:
replace the entry in place. -/
def setAlert (l : List (String × Alert)) (pid : String) (a : Alert) :
    List (String × Alert) :=
  l.map (fun p => if p.fst == pid then (pid, a) else p)

/-- Truthiness of `alert.threat.max_wind_gust_mph` in Python. -/
def windGustTruthy (t : ThreatData) : Bool :=
  match t.max_wind_gust_mph with
  | some v => v != 0
  | none => false

/-- Embeds the field-merge of `AlertManager.add_alert` for an existing
alert: every non-empty incoming field overwrites the stored one (`or`
semantics of the source), the threat block only when it has a tornado tag or
a truthy wind gust, then `mark_updated`. -/
def merge_update (now : Int) (existing incoming : Alert) : Alert :=
  Alert.mark_updated now
    { existing with
      headline := if incoming.headline = "" then existing.headline
        else incoming.headline
      description := if incoming.description = "" then existing.description
        else incoming.description
      instruction := if incoming.instruction = "" then existing.instruction
        else incoming.instruction
      expiration_time :=
        match incoming.expiration_time with
        | some t => some t
        | none => existing.expiration_time
      threat :=
        if incoming.threat.tornado_detection.isSome
            || windGustTruthy incoming.threat then incoming.threat
        else existing.threat
      polygon := if incoming.polygon = [] then existing.polygon
        else incoming.polygon }

/-- Python `deque(maxlen).appendleft` on the recent-products buffer
(`AlertManager._add_to_recent`). -/
def addToRecent (s : ManagerState) (pid : String) : List String :=
  (pid :: s.recent).take s.max_recent

/-- Embeds `AlertManager.add_alert` (src/backend/services/alert_manager.py,
lines 123-172).  Returns the boolean result, the successor state and the
list of alert-carrying notifications fired, in order. -/
def add_alert (s : ManagerState) (now : Int) (a : Alert) :
    Bool × ManagerState × List ManagerEvent :=
  if a.product_id = "" then (false, s, [])
  else
    match lookupAlert s.alerts a.product_id with
    | some existing =>
      if a.status = AlertStatus.cancelled then
        (true, { s with alerts := eraseAlert s.alerts a.product_id },
          [ManagerEvent.removed existing])
      else
        let merged := merge_update now existing a
        (true, { s with alerts := setAlert s.alerts a.product_id merged },
          [ManagerEvent.updated merged])
    | none =>
      if a.status = AlertStatus.cancelled then (false, s, [])
      else
        (true,
          { s with
            alerts := s.alerts ++ [(a.product_id, a)]
            recent := addToRecent s a.product_id },
          [ManagerEvent.added a])

/-- The expiry test of `AlertManager.cleanup_expired`: expiration time
present and not after `now`. -/
def expiredBy (now : Int) (a : Alert) : Bool :=
  match a.expiration_time with
  | some t => decide (t ≤ now)
  | none => false

/-- The pop loop of `AlertManager.cleanup_expired`: pop each collected id in
order, mark the popped alert expired and fire a removed notification. -/
def removePops (now : Int) :
    List (String × Alert) → List String → List (String × Alert) × List ManagerEvent
  | l, [] => (l, [])
  | l, pid :: ids =>
    match lookupAlert l pid with
    | some a =>
      let r := removePops now (eraseAlert l pid) ids
      (r.fst, ManagerEvent.removed (Alert.mark_expired now a) :: r.snd)
    | none => removePops now l ids

/-- Embeds `AlertManager.cleanup_expired` (src/backend/services/
alert_manager.py, lines 298-322): collect the ids of all alerts whose
expiration time has passed, pop each one (marking it expired and firing a
removed notification), and return the number of collected ids. -/
def cleanup_expired (s : ManagerState) (now : Int) :
    Nat × ManagerState × List ManagerEvent :=
  let expired_ids := (s.alerts.filter (fun p => expiredBy now p.snd)).map Prod.fst
  let r := removePops now s.alerts expired_ids
  (expired_ids.length, { s with alerts := r.fst }, r.snd)

/-- Representation invariant of the `_alerts` dict: keys are distinct, and
no stored key is the empty string (an alert without a product id is never
inserted, see the guard at the top of `add_alert`). -/
def ManagerWF (s : ManagerState) : Prop :=
  (s.alerts.map Prod.fst).Nodup ∧ ∀ p ∈ s.alerts, p.fst ≠ ""

/-- Concrete manager state used by witnesses: one alert expiring at instant
50 and one expiring at instant 200. -/
def managerStateEx : ManagerState :=
  { alerts :=
      [("TO.CLE.0001", { product_id := "TO.CLE.0001", expiration_time := some 50 }),
       ("SV.ILN.0002", { product_id := "SV.ILN.0002", expiration_time := some 200 })] }

/-- Concrete cancellation alert for the witnesses. -/
def cancelEx (pid : String) : Alert :=
  { product_id := pid, status := AlertStatus.cancelled }

/-- The ring-closure step at the end of `AlertParser._parse_text_polygon`
(src/backend/parsers/alert_parser.py, lines 503-556): when at least 3
vertices were parsed and the first differs from the last, append the first
vertex again. -/
def closeRing (coords : List (Rat × Rat)) : List (Rat × Rat) :=
  if 3 ≤ coords.length then
    match coords.head? with
    | some h => if coords.getLast? = some h then coords else coords ++ [h]
    | none => coords
  else coords

/-- One lat/lon pair conversion of the text `LAT...LON` block: values are
hundredths of a degree, longitude negated, kept only inside the
continental-US bounds. -/
def textPairToCoord (p : Nat × Nat) : Option (Rat × Rat) :=
  let lat : Rat := (p.fst : Rat) / 100
  let lon : Rat := -((p.snd : Rat) / 100)
  if 20 ≤ lat ∧ lat ≤ 60 ∧ -130 ≤ lon ∧ lon ≤ -60 then some (lat, lon) else none

/-- Consecutive pairing of the coordinate values found by
`PATTERN_COORD_VALUE.findall`. -/
def pairUp : List Nat → List (Nat × Nat)
  | a :: b :: rest => (a, b) :: pairUp rest
  | _ => []

namespace AlertParser

/-- Embeds the non-XML branch of `AlertParser._parse_text_polygon`
(src/backend/parsers/alert_parser.py, lines 503-556), starting from the list
of integer coordinate values extracted from the `LAT...LON` block: values
are consumed in pairs only when there are at least two of them and their
count is even, each pair is range-checked and converted, and finally the
ring is closed when it has at least 3 vertices. -/
def parse_text_polygon (values : List Nat) : List (Rat × Rat) :=
  let coords :=
    if 2 ≤ values.length ∧ values.length % 2 = 0 then
      (pairUp values).filterMap textPairToCoord
    else []
  closeRing coords

end AlertParser

/-- GeoJSON geometry objects as consumed by
`AlertParser._parse_geojson_geometry`: a Polygon is a list of rings of
`[lon, lat]` positions, a MultiPolygon a list of polygons; any other type
yields no coordinates. -/
inductive Geometry where
  | polygon (rings : List (List (Rat × Rat)))
  | multiPolygon (polys : List (List (List (Rat × Rat))))
  | other
deriving DecidableEq, Repr

namespace AlertParser

/-- Embeds `AlertParser._parse_geojson_geometry` (src/backend/parsers/
alert_parser.py, lines 481-500): take the outer ring (first ring of the
polygon, or first ring of the first polygon of a multipolygon) and swap
every `[lon, lat]` position to `[lat, lon]`.  No closure step is applied. -/
def parse_geojson_geometry : Geometry → List (Rat × Rat)
  | Geometry.polygon rings =>
    match rings.head? with
    | some outer => outer.map (fun c => (c.snd, c.fst))
    | none => []
  | Geometry.multiPolygon polys =>
    match polys.head? with
    | some poly =>
      match poly.head? with
      | some outer => outer.map (fun c => (c.snd, c.fst))
      | none => []
    | none => []
  | Geometry.other => []

end AlertParser

/-- An open (unclosed) 3-vertex GeoJSON ring: valid GeoJSON would repeat the
first position at the end, this input does not. -/
def openRingEx : Geometry :=
  Geometry.polygon [[(0, 0), (1, 0), (0, 1)]]

/-- Coordinate values of a concrete `LAT...LON` block with three vertices
(41.05 N 81.45 W, 40.98 N 81.32 W, 41.12 N 81.20 W). -/
def latLonValuesEx : List Nat :=
  [4105, 8145, 4098, 8132, 4112, 8120]

/-- Embeds `ThreatParser._kts_to_mph` (src/backend/parsers/threat_parser.py):
`round(kts * 1.15078)`.  For the magnitudes accepted by the gust parser the
product never lands exactly on a half, so Python float rounding agrees with
this exact floor-of-plus-half on rationals. -/
def kts_to_mph (kts : Nat) : Nat :=
  (kts * 115078 + 50000) / 100000

/-- Embeds `ThreatParser._mph_to_kts` (src/backend/parsers/threat_parser.py):
`round(mph * 0.868976)`, with the same exact-rounding remark. -/
def mph_to_kts (mph : Nat) : Nat :=
  (mph * 868976 + 500000) / 1000000

/-- One `PATTERN_WIND_GUST` match as consumed by the loop of
`ThreatParser.parse_wind_gust`: the captured numeric value (the first
non-empty group) and whether the matched text contains KT and MPH. -/
structure WindMatch where
  value : Nat
  hasKT : Bool
  hasMPH : Bool
deriving DecidableEq, Repr

namespace ThreatParser

/-- The unit conversion of the loop body: knots are converted to MPH exactly
when the matched text mentions KT and not MPH. -/
def convertMatch (m : WindMatch) : Nat :=
  if m.hasKT && !m.hasMPH then kts_to_mph m.value else m.value

/-- One iteration of the scan loop of `ThreatParser.parse_wind_gust`
(src/backend/parsers/threat_parser.py, lines 161-232): range-check the raw
value, convert, and keep the maximum seen so far. -/
def gustStep (acc : Option Nat) (m : WindMatch) : Option Nat :=
  if 10 ≤ m.value ∧ m.value ≤ 300 then
    let mph := convertMatch m
    match acc with
    | none => some mph
    | some cur => if mph > cur then some mph else some cur
  else acc

/-- Embeds `ThreatParser.parse_wind_gust` over the list of regex matches.
`xmlSeed` is the accumulator seeded by the XML branch (always `none` when
`is_xml` is false).  The final truthiness test of the source maps a zero
maximum to no result. -/
def parse_wind_gust (xmlSeed : Option Nat) (ms : List WindMatch) :
    Option Nat × Option Nat :=
  match ms.foldl gustStep xmlSeed with
  | some v => if v ≠ 0 then (some v, some (mph_to_kts v)) else (none, none)
  | none => (none, none)

/-- Embeds the XML branch of `ThreatParser.parse_wind_gust`
(src/backend/parsers/threat_parser.py, lines 180-192): when the product is
XML and a `maxWindGust` tag matched (`tag` carries the captured value and
whether the matched tag text mentions mph), the maximum is seeded with the
tag value, taken as MPH when mph is mentioned and converted from knots
otherwise.  No 10-300 range check is applied to this seed. -/
def xml_wind_seed (isXml : Bool) (tag : Option (Nat × Bool)) : Option Nat :=
  if isXml then
    match tag with
    | some t => some (if t.snd then t.fst else kts_to_mph t.fst)
    | none => none
  else none

/-- `ThreatParser.parse_wind_gust` over both input kinds: the XML branch
seeds the accumulator, then the match scan runs. -/
def parse_wind_gust_full (isXml : Bool) (tag : Option (Nat × Bool))
    (ms : List WindMatch) : Option Nat × Option Nat :=
  parse_wind_gust (xml_wind_seed isXml tag) ms

end ThreatParser

/-- Follows the words of the spec for claim C5: the converted MPH values of
all in-range wind/gust matches. -/
def windConvertedInRange (ms : List WindMatch) : List Nat :=
  ms.filterMap (fun m =>
    if 10 ≤ m.value ∧ m.value ≤ 300 then some (ThreatParser.convertMatch m)
    else none)

/-- Binary maximum on optional values, used to state the fold
characterization. -/
def omaxN : Option Nat → Option Nat → Option Nat
  | none, r => r
  | some c, none => some c
  | some c, some r => some (Nat.max c r)

/-- The `PATTERN_WIND_GUST` matches produced on the sentence
"winds 25 to 35 mph with gusts up to 60 mph": the WINDS alternative matches
"winds 25 to 35 mph" capturing 35, then the GUSTS alternative matches
"gusts up to 60 mph" capturing 60; both match texts mention MPH and not
KT. -/
def windMatchesEx : List WindMatch :=
  [⟨35, false, true⟩, ⟨60, false, true⟩]

/- ============================ Theorems ============================ -/

/-- Claim C1: for every valid VTEC record (4-character office code), the
product id is `PP ++ "A." ++ pad4 etn` when the significance is WATCH (office
omitted), and `PP ++ "." ++ officeWithoutK office ++ "." ++ pad4 etn`
otherwise; consequently two records with significance WATCH, the same
phenomenon and the same ETN but possibly different offices get equal ids. -/
theorem claim_C1_product_id (v w : VTECInfo)
    (hv : v.office.length = 4) (_hw : w.office.length = 4) :
    VTECParser.build_product_id v =
      (if v.significance = AlertSignificance.WATCH then
        v.phenomenon ++ "A." ++ pad4 v.event_tracking_number
      else
        v.phenomenon ++ "." ++ officeWithoutK v.office ++ "." ++
          pad4 v.event_tracking_number) ∧
    (v.significance = AlertSignificance.WATCH →
      w.significance = AlertSignificance.WATCH →
      v.phenomenon = w.phenomenon →
      v.event_tracking_number = w.event_tracking_number →
      VTECParser.build_product_id v = VTECParser.build_product_id w) := by
  constructor
  · unfold VTECParser.build_product_id officeWithoutK
    by_cases hsig : v.significance = AlertSignificance.WATCH
    · simp [hsig]
    · simp only [hsig, if_false, hv]
      by_cases hk : v.office.startsWith "K"
      · simp [hk]
      · simp [hk]
  · intro h1 h2 h3 h4
    unfold VTECParser.build_product_id
    simp [h1, h2, h3, h4]

/-- Witness for claim C1: two tornado watches with the same ETN issued by
different offices collapse to the same product id. -/
theorem claim_C1_product_id_witness :
    VTECParser.build_product_id
        ⟨"KCLE", "TO", AlertSignificance.WATCH, 123⟩ =
      VTECParser.build_product_id
        ⟨"KIND", "TO", AlertSignificance.WATCH, 123⟩ :=
  (claim_C1_product_id ⟨"KCLE", "TO", AlertSignificance.WATCH, 123⟩
    ⟨"KIND", "TO", AlertSignificance.WATCH, 123⟩ (by decide) (by decide)).2
    rfl rfl rfl rfl

/-- Claim C7: an inclusive UGC range with 3-digit endpoints expands to
exactly the codes `pfx ++ pad3 n` for `n` between the two endpoints, in
either order, and the reversed range yields the same expansion; in
particular OHC001>005 expands to OHC001 through OHC005. -/
theorem claim_C7_ugc_range (pfx : String) (s e : Nat)
    (_hs : s ≤ 999) (_he : e ≤ 999) :
    (∀ c, c ∈ UGCParser.expand_range pfx s e ↔
      ∃ n, min s e ≤ n ∧ n ≤ max s e ∧ c = pfx ++ pad3 n) ∧
    UGCParser.expand_range pfx s e = UGCParser.expand_range pfx e s ∧
    UGCParser.expand_range "OHC" 1 5 =
      ["OHC001", "OHC002", "OHC003", "OHC004", "OHC005"] := by
  refine ⟨?_, ?_, by decide⟩
  · intro c
    by_cases hse : s > e
    · have hmin : min s e = e := min_eq_right (Nat.le_of_lt hse)
      have hmax : max s e = s := max_eq_left (Nat.le_of_lt hse)
      simp only [UGCParser.expand_range, if_pos hse, List.mem_map,
        List.mem_range'_1, hmin, hmax]
      constructor
      · rintro ⟨n, hn, rfl⟩
        exact ⟨n, by omega, by omega, rfl⟩
      · rintro ⟨n, h1, h2, rfl⟩
        exact ⟨n, by omega, rfl⟩
    · have hle : s ≤ e := Nat.le_of_not_lt hse
      have hmin : min s e = s := min_eq_left hle
      have hmax : max s e = e := max_eq_right hle
      simp only [UGCParser.expand_range, if_neg hse, List.mem_map,
        List.mem_range'_1, hmin, hmax]
      constructor
      · rintro ⟨n, hn, rfl⟩
        exact ⟨n, by omega, by omega, rfl⟩
      · rintro ⟨n, h1, h2, rfl⟩
        exact ⟨n, by omega, rfl⟩
  · rcases Nat.lt_trichotomy s e with h | h | h
    · have h1 : ¬ s > e := Nat.not_lt.mpr (Nat.le_of_lt h)
      simp only [UGCParser.expand_range, if_neg h1, if_pos h]
    · simp [UGCParser.expand_range, h]
    · have h1 : ¬ e > s := Nat.not_lt.mpr (Nat.le_of_lt h)
      simp only [UGCParser.expand_range, if_pos h, if_neg h1]

/-- Witness for claim C7: the range OHC001>005 and the reversed OHC005>001
expand to the same five codes. -/
theorem claim_C7_ugc_range_witness :
    UGCParser.expand_range "OHC" 1 5 = UGCParser.expand_range "OHC" 5 1 :=
  (claim_C7_ugc_range "OHC" 1 5 (by decide) (by decide)).2.1

/-- Claim C9 counterexample: a threat block whose flash-flood damage tier is
CATASTROPHIC (and, separately, one whose tornado tier is DESTRUCTIVE)
reaches CONSIDERABLE-or-above on one of the four tiers, yet `is_pds` is
false, refuting the claimed four-field iff. -/
theorem claim_C9_counterexample :
    tierConsiderableOrAbove threatFlashFloodOnly.flash_flood_damage_threat = true ∧
    ThreatData.is_pds threatFlashFloodOnly = false ∧
    tierConsiderableOrAbove threatTornadoDestructive.tornado_damage_threat = true ∧
    ThreatData.is_pds threatTornadoDestructive = false := by decide

/-- Claim C9 (amended): `is_pds` is true iff the tornado tier is
CONSIDERABLE or CATASTROPHIC, or the wind tier is CONSIDERABLE, DESTRUCTIVE
or CATASTROPHIC, or the hail tier is CONSIDERABLE or CATASTROPHIC; the
flash-flood tier is never consulted. -/
theorem claim_C9_is_pds_amended (t : ThreatData) (x : Option String) :
    (t.is_pds = true ↔
      (t.tornado_damage_threat = some "CONSIDERABLE"
        ∨ t.tornado_damage_threat = some "CATASTROPHIC")
      ∨ (t.wind_damage_threat = some "CONSIDERABLE"
        ∨ t.wind_damage_threat = some "DESTRUCTIVE"
        ∨ t.wind_damage_threat = some "CATASTROPHIC")
      ∨ (t.hail_damage_threat = some "CONSIDERABLE"
        ∨ t.hail_damage_threat = some "CATASTROPHIC")) ∧
    ThreatData.is_pds { t with flash_flood_damage_threat := x } = t.is_pds := by
  constructor
  · unfold ThreatData.is_pds
    simp only [Bool.or_eq_true, beq_iff_eq]
    tauto
  · rfl

/-- Claim C2: with a non-empty configured state filter, the text-parser
state-filtering stage returns exactly the input codes whose state prefix is
in the filter, and rejects (returns none) when no code matches. -/
theorem claim_C2_state_filter (fs areas : List String) (h : fs ≠ []) :
    AlertParser.state_filter_stage fs areas =
      (if (areas.filter (AlertParser.stateMatch fs)).isEmpty then none
       else some (areas.filter (AlertParser.stateMatch fs))) := by
  have hfs : fs.isEmpty = false := by
    cases fs with
    | nil => exact absurd rfl h
    | cons a l => rfl
  unfold AlertParser.state_filter_stage AlertParser.is_target_state
    AlertParser.filter_to_target_states
  rw [hfs]
  by_cases hA : areas.isEmpty
  · have hnil : areas = [] := List.isEmpty_iff.mp hA
    subst hnil
    simp
  · simp only [hA, Bool.false_eq_true, if_false]
    by_cases hAny : areas.any (AlertParser.stateMatch fs)
    · simp [hAny]
    · have hfil : areas.filter (AlertParser.stateMatch fs) = [] := by
        rw [List.filter_eq_nil_iff]
        intro a ha hpa
        exact hAny (List.any_eq_true.mpr ⟨a, ha, hpa⟩)
      simp [hAny, hfil]

/-- Witness for claim C2: with filter [OH], the areas [OHC001, INC001] are
pruned to [OHC001]; with filter [CA] the same alert is rejected. -/
theorem claim_C2_state_filter_witness :
    AlertParser.state_filter_stage ["OH"] ["OHC001", "INC001"] = some ["OHC001"] ∧
    AlertParser.state_filter_stage ["CA"] ["OHC001", "INC001"] = none := by
  have h1 := claim_C2_state_filter ["OH"] ["OHC001", "INC001"] (by decide)
  have h2 := claim_C2_state_filter ["CA"] ["OHC001", "INC001"] (by decide)
  exact ⟨h1.trans (by decide), h2.trans (by decide)⟩

/-- Claim C8 counterexample: a raw text product with no valid VTEC and no
watch header gets the timestamp fallback id, which never has the claimed
`SPS.adhoc` shape, and two copies received at different instants get
different ids. -/
theorem claim_C8_counterexample :
    AlertParser.text_product_id none none "1700000000.123" = "nwws_1700000000.123" ∧
    hasPrefixL (AlertParser.text_product_id none none "1700000000.123").data
      ("SPS.adhoc").data = false ∧
    AlertParser.text_product_id none none "1700000000.123" ≠
      AlertParser.text_product_id none none "1700000060.456" := by decide

/-- Claim C8 (amended): with no valid VTEC and no watch header the parser
assigns the fallback product id `"nwws_" ++ timestamp` regardless of the
phenomenon (no SPS hash id exists in the code), so two copies of the same
product received at different timestamps get distinct product ids. -/
theorem claim_C8_fallback_id_amended :
    (∀ ts : String, AlertParser.text_product_id none none ts = "nwws_" ++ ts) ∧
    (∀ t1 t2 : String, t1 ≠ t2 →
      AlertParser.text_product_id none none t1 ≠
        AlertParser.text_product_id none none t2) := by
  constructor
  · intro ts
    rfl
  · intro t1 t2 hne heq
    apply hne
    have h1 : "nwws_" ++ t1 = "nwws_" ++ t2 := heq
    have h2 := congrArg String.data h1
    rw [String.data_append, String.data_append] at h2
    exact String.ext (List.append_cancel_left h2)

/-- Witness for claim C8 (amended): two distinct timestamps give distinct
fallback ids. -/
theorem claim_C8_fallback_id_amended_witness :
    AlertParser.text_product_id none none "1" ≠
      AlertParser.text_product_id none none "2" :=
  claim_C8_fallback_id_amended.2 "1" "2" (by decide)

/-- Claim C10: adding an alert whose product id is the empty string is
rejected outright: the manager returns False, fires no notification, and
leaves both the active set and the recent-products buffer unchanged. -/
theorem claim_C10_empty_product_id (s : ManagerState) (now : Int) (a : Alert)
    (h : a.product_id = "") :
    add_alert s now a = (false, s, []) := by
  unfold add_alert
  simp [h]

/-- Witness for claim C10 on a concrete state. -/
theorem claim_C10_empty_product_id_witness :
    add_alert managerStateEx 0 { product_id := "" } = (false, managerStateEx, []) :=
  claim_C10_empty_product_id managerStateEx 0 { product_id := "" } rfl

/-- A successful `lookupAlert` witnesses membership of the keyed entry. -/
theorem lookupAlert_mem {l : List (String × Alert)} {pid : String} {a : Alert}
    (h : lookupAlert l pid = some a) : (pid, a) ∈ l := by
  unfold lookupAlert at h
  cases hf : l.find? (fun p => p.fst == pid) with
  | none => rw [hf] at h; simp at h
  | some p =>
    rw [hf] at h
    have hmem := List.mem_of_find?_eq_some hf
    have hkey := List.find?_some hf
    cases p with
    | mk k b =>
      have hk : k = pid := by simpa using hkey
      have hb : b = a := by simpa using h
      rw [← hk, ← hb]
      exact hmem

/-- A key that is absent from the key list is not found. -/
theorem lookupAlert_eq_none {l : List (String × Alert)} {pid : String}
    (h : pid ∉ l.map Prod.fst) : lookupAlert l pid = none := by
  induction l with
  | nil => rfl
  | cons p t ih =>
    simp only [List.map_cons, List.mem_cons] at h
    push_neg at h
    unfold lookupAlert
    rw [List.find?_cons_of_neg]
    · exact ih h.2
    · simp [Ne.symm h.1]

/-- Erasing a key from an alert list with distinct keys makes that key
unfindable. -/
theorem lookupAlert_eraseAlert_self {l : List (String × Alert)} {pid : String}
    (h : (l.map Prod.fst).Nodup) :
    lookupAlert (eraseAlert l pid) pid = none := by
  induction l with
  | nil => rfl
  | cons p t ih =>
    simp only [List.map_cons, List.nodup_cons] at h
    by_cases hp : p.fst = pid
    · have : eraseAlert (p :: t) pid = t := by
        unfold eraseAlert
        rw [List.eraseP_cons_of_pos]
        simp [hp]
      rw [this]
      apply lookupAlert_eq_none
      rw [← hp]
      exact h.1
    · have : eraseAlert (p :: t) pid = p :: eraseAlert t pid := by
        unfold eraseAlert
        rw [List.eraseP_cons_of_neg]
        simp [hp]
      rw [this]
      unfold lookupAlert
      rw [List.find?_cons_of_neg]
      · exact ih h.2
      · simp [hp]

/-- Claim C3: adding a cancelled-status alert is a pure no-op (False, no
notification, state untouched) when its product id is not in the active set,
and removes the stored alert with exactly one removed notification when it
is; afterwards the id is gone from the active set. -/
theorem claim_C3_cancellation (s : ManagerState) (now : Int) (a : Alert)
    (hwf : ManagerWF s) (hc : a.status = AlertStatus.cancelled) :
    (lookupAlert s.alerts a.product_id = none →
      add_alert s now a = (false, s, [])) ∧
    (∀ e, lookupAlert s.alerts a.product_id = some e →
      add_alert s now a =
        (true, { s with alerts := eraseAlert s.alerts a.product_id },
          [ManagerEvent.removed e]) ∧
      lookupAlert (eraseAlert s.alerts a.product_id) a.product_id = none) := by
  constructor
  · intro hnone
    unfold add_alert
    by_cases hid : a.product_id = ""
    · simp [hid]
    · simp [hid, hnone, hc]
  · intro e he
    have hid : a.product_id ≠ "" := hwf.2 (a.product_id, e) (lookupAlert_mem he)
    refine ⟨?_, lookupAlert_eraseAlert_self hwf.1⟩
    unfold add_alert
    simp [hid, he, hc]

/-- Witness for claim C3: cancelling an unknown id is a no-op on the example
state; cancelling a stored id removes it and fires one removed event. -/
theorem claim_C3_cancellation_witness :
    add_alert managerStateEx 0 (cancelEx "FF.XXX.0009") =
      (false, managerStateEx, []) ∧
    add_alert managerStateEx 0 (cancelEx "TO.CLE.0001") =
      (true,
        { managerStateEx with
          alerts := eraseAlert managerStateEx.alerts "TO.CLE.0001" },
        [ManagerEvent.removed
          { product_id := "TO.CLE.0001", expiration_time := some 50 }]) := by
  have h1 := claim_C3_cancellation managerStateEx 0 (cancelEx "FF.XXX.0009")
    (by constructor <;> decide) rfl
  have h2 := claim_C3_cancellation managerStateEx 0 (cancelEx "TO.CLE.0001")
    (by constructor <;> decide) rfl
  refine ⟨h1.1 (by decide), ?_⟩
  exact (h2.2 { product_id := "TO.CLE.0001", expiration_time := some 50 }
    (by decide)).1

/-- The pop loop skips over an entry whose key is not among the ids to
remove. -/
theorem removePops_cons_not_mem (now : Int) (k : String) (a : Alert)
    (t : List (String × Alert)) :
    ∀ ids : List String, k ∉ ids →
    removePops now ((k, a) :: t) ids =
      ((k, a) :: (removePops now t ids).fst, (removePops now t ids).snd) := by
  intro ids
  induction ids generalizing t with
  | nil => intro _; rfl
  | cons pid ids ih =>
    intro hk
    simp only [List.mem_cons] at hk
    push_neg at hk
    have hne : k ≠ pid := hk.1
    have hlook : lookupAlert ((k, a) :: t) pid = lookupAlert t pid := by
      unfold lookupAlert
      rw [List.find?_cons_of_neg]
      simp [hne]
    have herase : eraseAlert ((k, a) :: t) pid = (k, a) :: eraseAlert t pid := by
      unfold eraseAlert
      rw [List.eraseP_cons_of_neg]
      simp [hne]
    cases hl : lookupAlert t pid with
    | some b =>
      simp only [removePops, hlook, hl, herase]
      rw [ih (eraseAlert t pid) hk.2]
    | none =>
      simp only [removePops, hlook, hl]
      exact ih t hk.2

/-- Popping exactly the keys of the entries selected by a predicate, from an
alert list with distinct keys, leaves the rejected entries and fires one
removed notification (with the alert marked expired) per selected entry, in
order. -/
theorem removePops_filter (now : Int) (q : String × Alert → Bool) :
    ∀ l : List (String × Alert), (l.map Prod.fst).Nodup →
    removePops now l ((l.filter q).map Prod.fst) =
      (l.filter (fun pr => !q pr),
       (l.filter q).map
         (fun pr => ManagerEvent.removed (Alert.mark_expired now pr.snd))) := by
  intro l
  induction l with
  | nil => intro _; rfl
  | cons p t ih =>
    intro h
    simp only [List.map_cons, List.nodup_cons] at h
    cases p with
    | mk k a =>
      by_cases hq : q (k, a)
      · have hfil : ((k, a) :: t).filter q = (k, a) :: t.filter q :=
          List.filter_cons_of_pos hq
        have hnfil : ((k, a) :: t).filter (fun pr => !q pr) =
            t.filter (fun pr => !q pr) := by
          apply List.filter_cons_of_neg
          simp [hq]
        rw [hfil, hnfil]
        simp only [List.map_cons]
        have hlook : lookupAlert ((k, a) :: t) k = some a := by
          unfold lookupAlert
          rw [List.find?_cons_of_pos] <;> simp
        have herase : eraseAlert ((k, a) :: t) k = t := by
          unfold eraseAlert
          rw [List.eraseP_cons_of_pos]
          simp
        simp only [removePops, hlook, herase]
        rw [ih h.2]
      · have hfil : ((k, a) :: t).filter q = t.filter q :=
          List.filter_cons_of_neg (by simp [hq])
        have hnfil : ((k, a) :: t).filter (fun pr => !q pr) =
            (k, a) :: t.filter (fun pr => !q pr) := by
          apply List.filter_cons_of_pos
          simp [hq]
        rw [hfil, hnfil]
        have hnotmem : k ∉ (t.filter q).map Prod.fst := by
          intro hmem
          apply h.1
          rcases List.mem_map.mp hmem with ⟨pr, hpr, heq⟩
          exact List.mem_map.mpr ⟨pr, List.mem_of_mem_filter hpr, heq⟩
        rw [removePops_cons_not_mem now k a t ((t.filter q).map Prod.fst) hnotmem]
        rw [ih h.2]

/-- Claim C4: one cleanup run removes from the active set exactly the alerts
whose expiration time is present and not after `now`, fires one removed
notification per removed alert with the alert marked expired, returns the
number removed, and leaves no alert with a passed expiration time behind. -/
theorem claim_C4_cleanup_expired (s : ManagerState) (now : Int)
    (h : (s.alerts.map Prod.fst).Nodup) :
    cleanup_expired s now =
      ((s.alerts.filter (fun pr => expiredBy now pr.snd)).length,
       { s with alerts := s.alerts.filter (fun pr => !expiredBy now pr.snd) },
       (s.alerts.filter (fun pr => expiredBy now pr.snd)).map
         (fun pr => ManagerEvent.removed (Alert.mark_expired now pr.snd))) ∧
    (∀ pr ∈ (cleanup_expired s now).2.1.alerts, expiredBy now pr.snd = false) ∧
    (∀ ev ∈ (cleanup_expired s now).2.2, ∃ b,
      ev = ManagerEvent.removed b ∧ b.status = AlertStatus.expired) := by
  have hmain : cleanup_expired s now =
      ((s.alerts.filter (fun pr => expiredBy now pr.snd)).length,
       { s with alerts := s.alerts.filter (fun pr => !expiredBy now pr.snd) },
       (s.alerts.filter (fun pr => expiredBy now pr.snd)).map
         (fun pr => ManagerEvent.removed (Alert.mark_expired now pr.snd))) := by
    simp only [cleanup_expired]
    rw [removePops_filter now (fun pr => expiredBy now pr.snd) s.alerts h]
    simp [List.length_map]
  refine ⟨hmain, ?_, ?_⟩
  · intro pr hpr
    rw [hmain] at hpr
    simp only at hpr
    have := List.of_mem_filter hpr
    simpa using this
  · intro ev hev
    rw [hmain] at hev
    simp only at hev
    rcases List.mem_map.mp hev with ⟨pr, _, heq⟩
    exact ⟨Alert.mark_expired now pr.snd, heq.symm, rfl⟩

/-- Witness for claim C4: on the example state at instant 100, exactly the
alert expiring at 50 is removed. -/
theorem claim_C4_cleanup_expired_witness :
    cleanup_expired managerStateEx 100 =
      ((managerStateEx.alerts.filter (fun pr => expiredBy 100 pr.snd)).length,
       { managerStateEx with
         alerts := managerStateEx.alerts.filter (fun pr => !expiredBy 100 pr.snd) },
       (managerStateEx.alerts.filter (fun pr => expiredBy 100 pr.snd)).map
         (fun pr => ManagerEvent.removed (Alert.mark_expired 100 pr.snd))) :=
  (claim_C4_cleanup_expired managerStateEx 100 (by decide)).1

/-- After the closure step, a ring of at least 3 vertices starts and ends
with the same point. -/
theorem closeRing_closed (c : List (Rat × Rat)) (h : 3 ≤ (closeRing c).length) :
    (closeRing c).head? = (closeRing c).getLast? := by
  unfold closeRing at h ⊢
  by_cases h3 : 3 ≤ c.length
  · cases c with
    | nil => simp at h3
    | cons x t =>
      simp only [if_pos h3, List.head?_cons] at h ⊢
      by_cases hcl : (x :: t).getLast? = some x
      · simp only [hcl, if_pos]
        simp [hcl]
      · simp only [hcl, if_neg, ite_false]
        rw [List.getLast?_concat, List.cons_append, List.head?_cons]
  · simp only [if_neg h3] at h
    exact absurd h h3

/-- Claim C6 counterexample: an unclosed 3-vertex GeoJSON ring is passed
through `_parse_geojson_geometry` without a closure step, so the parsed
polygon has at least 3 vertices but its first point differs from its last
point, refuting the claim for GeoJSON-parsed alerts. -/
theorem claim_C6_counterexample :
    3 ≤ (AlertParser.parse_geojson_geometry openRingEx).length ∧
    (AlertParser.parse_geojson_geometry openRingEx).head? ≠
      (AlertParser.parse_geojson_geometry openRingEx).getLast? := by decide

/-- Claim C6 (amended): a text-parsed polygon with at least 3 vertices is
always closed (the parser appends the first vertex when needed); a
GeoJSON-parsed polygon is the input outer ring with coordinates swapped and
is closed whenever the input outer ring is itself closed, as valid GeoJSON
guarantees. -/
theorem claim_C6_polygon_closure_amended :
    (∀ values : List Nat, 3 ≤ (AlertParser.parse_text_polygon values).length →
      (AlertParser.parse_text_polygon values).head? =
        (AlertParser.parse_text_polygon values).getLast?) ∧
    (∀ (rings : List (List (Rat × Rat))) (outer : List (Rat × Rat)),
      rings.head? = some outer → outer.head? = outer.getLast? →
      (AlertParser.parse_geojson_geometry (Geometry.polygon rings)).head? =
        (AlertParser.parse_geojson_geometry (Geometry.polygon rings)).getLast?) := by
  constructor
  · intro values h
    exact closeRing_closed _ h
  · intro rings outer hhead hclosed
    simp only [AlertParser.parse_geojson_geometry]
    rw [hhead]
    simp only [List.head?_map, List.getLast?_map, hclosed]

/-- Witness for claim C6 (amended): the concrete three-vertex LAT...LON
block parses to a closed ring, and a closed four-vertex GeoJSON ring stays
closed. -/
theorem claim_C6_polygon_closure_amended_witness :
    ((AlertParser.parse_text_polygon latLonValuesEx).head? =
      (AlertParser.parse_text_polygon latLonValuesEx).getLast?) ∧
    ((AlertParser.parse_geojson_geometry
        (Geometry.polygon [[(0, 0), (1, 0), (0, 1), (0, 0)]])).head? =
      (AlertParser.parse_geojson_geometry
        (Geometry.polygon [[(0, 0), (1, 0), (0, 1), (0, 0)]])).getLast?) := by
  constructor
  · apply claim_C6_polygon_closure_amended.1 latLonValuesEx
    have hval : AlertParser.parse_text_polygon latLonValuesEx =
        closeRing ((pairUp latLonValuesEx).filterMap textPairToCoord) := by
      norm_num [AlertParser.parse_text_polygon, latLonValuesEx]
    have hco : (pairUp latLonValuesEx).filterMap textPairToCoord =
        [(4105 / 100, -(8145 / 100)), (4098 / 100, -(8132 / 100)),
         (4112 / 100, -(8120 / 100))] := by
      norm_num [latLonValuesEx, pairUp, textPairToCoord, List.filterMap]
    rw [hval, hco]
    have hne : ¬ ([((4105 : Rat) / 100, -((8145 : Rat) / 100)),
        (4098 / 100, -(8132 / 100)), (4112 / 100, -(8120 / 100))].getLast? =
          some (4105 / 100, -(8145 / 100))) := by
      norm_num
    simp only [closeRing, List.head?_cons, List.length_cons, List.length_nil,
      if_pos (by norm_num : 3 ≤ 2 + 1 + 1 + 1 - 1)]
    norm_num [hne]
  · exact claim_C6_polygon_closure_amended.2
      [[(0, 0), (1, 0), (0, 1), (0, 0)]] [(0, 0), (1, 0), (0, 1), (0, 0)]
      rfl (by decide)

/-- The scan loop computes the optional maximum of the converted in-range
values, merged with the seed accumulator. -/
theorem foldl_gustStep (ms : List WindMatch) :
    ∀ acc : Option Nat,
    ms.foldl ThreatParser.gustStep acc =
      omaxN acc (windConvertedInRange ms).max? := by
  induction ms with
  | nil =>
    intro acc
    cases acc <;> rfl
  | cons m t ih =>
    intro acc
    rw [List.foldl_cons, ih]
    by_cases hm : 10 ≤ m.value ∧ m.value ≤ 300
    · have hw : windConvertedInRange (m :: t) =
          ThreatParser.convertMatch m :: windConvertedInRange t := by
        unfold windConvertedInRange
        rw [List.filterMap_cons]
        simp [hm]
      have hstep : ThreatParser.gustStep acc m =
          omaxN acc (some (ThreatParser.convertMatch m)) := by
        unfold ThreatParser.gustStep
        cases acc with
        | none => simp [hm, omaxN]
        | some c =>
          simp only [hm, and_self, if_true, omaxN]
          by_cases hgt : ThreatParser.convertMatch m > c
          · simp [hgt, Nat.max_eq_right (Nat.le_of_lt hgt)]
          · simp [hgt, Nat.max_eq_left (Nat.le_of_not_lt hgt)]
      rw [hstep, hw]
      rw [List.max?_cons]
      cases acc with
      | none =>
        cases hx : (windConvertedInRange t).max? <;> simp [omaxN, hx]
      | some c =>
        cases hx : (windConvertedInRange t).max? with
        | none => simp [omaxN, hx]
        | some r => simp [omaxN, hx, Nat.max_assoc]
    · have hw : windConvertedInRange (m :: t) = windConvertedInRange t := by
        unfold windConvertedInRange
        rw [List.filterMap_cons]
        simp [hm]
      have hstep : ThreatParser.gustStep acc m = acc := by
        unfold ThreatParser.gustStep
        simp [hm]
      rw [hstep, hw]

/-- Every converted in-range value is at least 10 MPH. -/
theorem mem_windConvertedInRange_ge (ms : List WindMatch) (x : Nat)
    (h : x ∈ windConvertedInRange ms) : 10 ≤ x := by
  unfold windConvertedInRange at h
  rcases List.mem_filterMap.mp h with ⟨m, _, hm⟩
  by_cases hr : 10 ≤ m.value ∧ m.value ≤ 300
  · rw [if_pos hr] at hm
    have hx : ThreatParser.convertMatch m = x := by simpa using hm
    rw [← hx]
    unfold ThreatParser.convertMatch
    by_cases hk : m.hasKT && !m.hasMPH
    · rw [if_pos hk]
      unfold kts_to_mph
      have h1 : (1200780 : Nat) / 100000 ≤ (m.value * 115078 + 50000) / 100000 :=
        Nat.div_le_div_right (by omega)
      omega
    · rw [if_neg hk]
      exact hr.1
  · rw [if_neg hr] at hm
    exact absurd hm (by simp)

/-- The extracted MPH maximum is the optional maximum of the seed and the
converted in-range match values, with a zero maximum mapped to none by the
final truthiness test of the source. -/
theorem parse_wind_gust_fst_eq (seed : Option Nat) (ms : List WindMatch) :
    (ThreatParser.parse_wind_gust seed ms).fst =
      (match omaxN seed (windConvertedInRange ms).max? with
       | some v => if v ≠ 0 then some v else none
       | none => none) := by
  unfold ThreatParser.parse_wind_gust
  rw [foldl_gustStep ms seed]
  cases omaxN seed (windConvertedInRange ms).max? with
  | none => rfl
  | some v =>
    by_cases hv : v ≠ 0 <;> simp [hv]

/-- Claim C5 counterexample: an XML product carrying
`<maxWindGust>400</maxWindGust>` (tag text without mph) and no in-range
wind/gust match is assigned a 460 MPH gust — the tag value converted from
knots, never range-checked — whereas the claimed formula (maximum over
in-range matches, None when none exists) yields None. -/
theorem claim_C5_counterexample :
    ThreatParser.parse_wind_gust_full true (some (400, false)) [] =
      (some 460, some 400) ∧
    (windConvertedInRange []).max? = none := by decide

/-- Claim C5 (amended): for non-XML inputs the extracted maximum wind gust
equals the maximum over all wind/gust matches, converted from knots to MPH
when given in KT, considering only raw values within 10-300, and is none
when no in-range match exists; for XML inputs the `maxWindGust` tag
additionally seeds the scan without any range check (converted from knots
unless the tag mentions mph), and the result is the maximum of seed and
in-range converted matches, a zero maximum mapped to none.  In particular
the matches of "winds 25 to 35 mph with gusts up to 60 mph" yield 60 MPH,
never 35. -/
theorem claim_C5_wind_gust_amended (tag : Option (Nat × Bool))
    (ms : List WindMatch) :
    (ThreatParser.parse_wind_gust_full false tag ms).fst =
      (windConvertedInRange ms).max? ∧
    (ThreatParser.parse_wind_gust_full true tag ms).fst =
      (match omaxN (ThreatParser.xml_wind_seed true tag)
          (windConvertedInRange ms).max? with
       | some v => if v ≠ 0 then some v else none
       | none => none) ∧
    ThreatParser.parse_wind_gust_full false none windMatchesEx =
      (some 60, some 52) ∧
    (windConvertedInRange windMatchesEx).max? = some 60 := by
  refine ⟨?_, ?_, by decide, by decide⟩
  · show (ThreatParser.parse_wind_gust none ms).fst = _
    rw [parse_wind_gust_fst_eq none ms]
    cases hX : (windConvertedInRange ms).max? with
    | none => rfl
    | some v =>
      have hv : v ∈ windConvertedInRange ms :=
        List.max?_mem (fun a b => by omega) hX
      have h10 : 10 ≤ v := mem_windConvertedInRange_ge ms v hv
      have hne : v ≠ 0 := by omega
      simp [omaxN, hne]
  · exact parse_wind_gust_fst_eq (ThreatParser.xml_wind_seed true tag) ms
